import Mathlib

/-!
Verification of the image service of the srinagar-gems backend
(`src/services/imageService.js`), a pipeline that validates an uploaded
image buffer, derives four resized variants, uploads each to Backblaze B2,
and later deletes or proxies the stored files.

The JavaScript is shallowly embedded: byte buffers become `List UInt8`,
JavaScript exceptions become `Except String` carrying the thrown message,
and every network call (sharp encoding, B2 upload/list/download/authorize)
is abstracted as an oracle parameter giving the outcome of that call, so the
orchestration logic around those calls is modelled exactly.
-/

namespace ImageService

/-- One entry of the `imageSizes` table: optional resize geometry plus an
encode quality. -/
structure SizeConfig where
  width : Option Nat
  height : Option Nat
  quality : Nat
deriving Repr, DecidableEq

/-- The `imageSizes` configuration table, in the insertion order of the
source object literal: thumbnail, medium, large, original. -/
def imageSizes : List (String × SizeConfig) :=
  [("thumbnail", ⟨some 150, some 150, 80⟩),
   ("medium", ⟨some 400, some 300, 85⟩),
   ("large", ⟨some 800, some 600, 90⟩),
   ("original", ⟨none, none, 95⟩)]

/-- `supportedFormats` from the constructor. -/
def supportedFormats : List String := ["image/jpeg", "image/png", "image/webp"]

/-- `maxFileSize` from the constructor: 10 MiB. -/
def maxFileSize : Nat := 10 * 1024 * 1024

/-- The `mime.extension` call of the `mime-types` npm library, modelled on
the three MIME types of `supportedFormats` (the only types that reach
`getFileExtension` on the upload path, since validation rejects the rest):
the library returns the first extension listed in mime-db, which is
`jpeg` (not `jpg`) for `image/jpeg`, `png` for `image/png` and `webp` for
`image/webp`; unknown types yield no extension. -/
def mimeExtension (mimeType : String) : Option String :=
  if mimeType = "image/jpeg" then some "jpeg"
  else if mimeType = "image/png" then some "png"
  else if mimeType = "image/webp" then some "webp"
  else none

/-- `getFileExtension` (lines 334-337): the mime-derived extension, with a
fallback of `jpg` when the library gives none. -/
def getFileExtension (mimeType : String) : String :=
  (mimeExtension mimeType).getD "jpg"

/-- The stored filename chosen by `uploadImage` for one variant (lines
96-107): `{fileId}.{extension}` for `original`, otherwise
`{fileId}_{sizeName}.{extension}`. -/
def uploadFileName (fileId extension sizeName : String) : String :=
  if sizeName = "original" then fileId ++ ("." ++ extension)
  else fileId ++ ("_" ++ sizeName ++ "." ++ extension)

/-- All four stored filenames produced by one upload, in variant order. -/
def uploadFileNames (fileId mimeType : String) : List String :=
  imageSizes.map (fun p => uploadFileName fileId (getFileExtension mimeType) p.1)

/-- The filename `deleteImage` reconstructs for one variant (lines
265-268): the extension is the hardcoded string `jpg`, with no reference
to the MIME type of the original upload. -/
def deleteFileName (fileId sizeName : String) : String :=
  if sizeName = "original" then fileId ++ ".jpg"
  else fileId ++ ("_" ++ sizeName ++ ".jpg")

/-- All four filenames `deleteImage` targets, in variant order. -/
def deleteFileNames (fileId : String) : List String :=
  imageSizes.map (fun p => deleteFileName fileId p.1)

/-- `validateImage` (lines 312-327). Each failed check throws, so the
three sequential `if ... throw` statements form a chain: size is checked
first, then format, then emptiness. The JavaScript `!imageBuffer` clause
is dropped because a `Buffer` object is never falsy. -/
def validateImage (imageBuffer : List UInt8) (mimeType : String) :
    Except String Unit :=
  if imageBuffer.length > maxFileSize then
    Except.error "File size exceeds maximum limit of 10MB"
  else if mimeType ∉ supportedFormats then
    Except.error ("Unsupported image format. Supported formats: " ++
      String.intercalate ", " supportedFormats)
  else if imageBuffer.length = 0 then
    Except.error "Invalid image file: empty buffer"
  else
    Except.ok ()

/-- `processImage` (lines 144-182): the sharp pipeline itself is an
external native library, abstracted as its outcome `sharpResult`; the
own contribution of the function is the error wrapper
`Image processing failed: ...` on any sharp failure. -/
def processImage (sharpResult : Except String (List UInt8)) :
    Except String (List UInt8) :=
  match sharpResult with
  | Except.ok b => Except.ok b
  | Except.error e => Except.error ("Image processing failed: " ++ e)

/-- `uploadToB2` (lines 191-219): the network calls (`getUploadUrl`,
`uploadFile`) are abstracted as their joint outcome `slotResult`; on
success the public URL is `{baseUrl}/{fileName}`, on failure the error is
wrapped as `B2 upload failed: ...`. -/
def uploadToB2 (baseUrl fileName : String) (slotResult : Except String Unit) :
    Except String String :=
  match slotResult with
  | Except.ok _ => Except.ok (baseUrl ++ "/" ++ fileName)
  | Except.error e => Except.error ("B2 upload failed: " ++ e)

/-- One iteration of the per-variant loop in `uploadImage` (lines
105-115): transcode the buffer for this variant, then upload it under the
stored filename of the variant, yielding the `(sizeName, url)` entry recorded
in `imageUrls`. -/
def uploadVariant (fileId extension baseUrl sizeName : String)
    (sharpResult : Except String (List UInt8))
    (uploadResult : Except String Unit) :
    Except String (String × String) :=
  match processImage sharpResult with
  | Except.error e => Except.error e
  | Except.ok _ =>
    match uploadToB2 baseUrl (uploadFileName fileId extension sizeName) uploadResult with
    | Except.error e => Except.error e
    | Except.ok url => Except.ok (sizeName, url)

/-- The fan-out over the variant table joined all-or-nothing
(`Promise.all`, line 118): the first failing variant fails the whole
operation; on success the URL map holds one entry per variant in table
order. `sharpResults` and `uploadResults` give the oracle outcomes of
each variant, keyed by variant name. -/
def uploadVariants (fileId extension baseUrl : String)
    (sharpResults : String → Except String (List UInt8))
    (uploadResults : String → Except String Unit) :
    List (String × SizeConfig) → Except String (List (String × String))
  | [] => Except.ok []
  | (sizeName, _) :: rest =>
    match uploadVariant fileId extension baseUrl sizeName
        (sharpResults sizeName) (uploadResults sizeName) with
    | Except.error e => Except.error e
    | Except.ok entry =>
      match uploadVariants fileId extension baseUrl sharpResults uploadResults rest with
      | Except.error e => Except.error e
      | Except.ok tail => Except.ok (entry :: tail)

/-- The success payload of `uploadImage` (lines 120-129). The wall-clock
`uploadedAt` timestamp is elided from the embedding. -/
structure UploadData where
  id : String
  urls : List (String × String)
  originalName : String
  mimeType : String
deriving Repr, DecidableEq

/-- `uploadImage` (lines 86-135). The freshly minted UUID is the
parameter `fileId` (`generateUUID` is random), and `baseUrl` is the
resolved public base URL. The whole body sits in a `try` whose `catch`
rethrows every error as `Image upload failed: {message}` (line 133). -/
def uploadImage (imageBuffer : List UInt8)
    (originalName mimeType fileId baseUrl : String)
    (sharpResults : String → Except String (List UInt8))
    (uploadResults : String → Except String Unit) :
    Except String UploadData :=
  let attempt : Except String UploadData :=
    match validateImage imageBuffer mimeType with
    | Except.error e => Except.error e
    | Except.ok _ =>
      match uploadVariants fileId (getFileExtension mimeType) baseUrl
          sharpResults uploadResults imageSizes with
      | Except.error e => Except.error e
      | Except.ok urls =>
        Except.ok ⟨fileId, urls, originalName, mimeType⟩
  match attempt with
  | Except.ok d => Except.ok d
  | Except.error e => Except.error ("Image upload failed: " ++ e)

/-- One entry of a `listFileNames` response. -/
structure FileInfo where
  fileId : String
  fileName : String
deriving Repr, DecidableEq

/-- A `deleteFileVersion` call issued against B2, recording its two
arguments. -/
structure DeleteCall where
  fileId : String
  fileName : String
deriving Repr, DecidableEq

/-- `deleteFromB2` (lines 286-305): list files starting at the target
name, find an entry whose `fileName` equals the target exactly, and issue
`deleteFileVersion` only for such an entry. The whole body is wrapped in
a `try` whose `catch` merely logs, so listing failures (and everything
else) are swallowed; the returned list records the delete calls issued.
`listResult` is the outcome of the `listFileNames` network call. -/
def deleteFromB2 (fileName : String)
    (listResult : Except String (List FileInfo)) : List DeleteCall :=
  match listResult with
  | Except.error _ => []
  | Except.ok files =>
    match files.find? (fun f => f.fileName == fileName) with
    | some f => [⟨f.fileId, fileName⟩]
    | none => []

/-- The `try` block of `deleteImage` (lines 261-274): reconstruct the
four jpg filenames and fan out a best-effort `deleteFromB2` per filename,
joined with `Promise.allSettled`, which never rejects; since
`deleteFromB2` also swallows its own errors, the block always reaches
`return true`, so the result is always `Except.ok`. `listings` gives the
`listFileNames` outcome observed for each target filename. -/
def deleteImageTry (fileId : String)
    (listings : String → Except String (List FileInfo)) :
    Except String (List DeleteCall) :=
  Except.ok ((deleteFileNames fileId).map
    (fun fn => deleteFromB2 fn (listings fn))).flatten

/-- `deleteImage` (lines 256-280): the value of the `try` block with the
`catch` that would return `false` on an exception; paired with the delete
calls issued. -/
def deleteImage (fileId : String)
    (listings : String → Except String (List FileInfo)) :
    Bool × List DeleteCall :=
  match deleteImageTry fileId listings with
  | Except.ok calls => (true, calls)
  | Except.error _ => (false, [])

/-- The error raised by a failing `downloadFileByName` call, separated
into the not-found case and every other store failure so that the two can
be distinguished in statements about `getImage`. -/
inductive B2DownloadError where
  | notFound (msg : String)
  | storeError (msg : String)
deriving Repr, DecidableEq

/-- A successful `downloadFileByName` response: body plus the three
headers `getImage` reads. -/
structure DownloadResponse where
  data : List UInt8
  contentType : Option String
  contentLength : Option String
  etag : Option String
deriving Repr, DecidableEq

/-- The value `getImage` returns on success (lines 238-243), with the
content type defaulted to `image/jpeg` when the header is absent. -/
structure GetImageData where
  body : List UInt8
  contentType : String
  contentLength : Option String
  etag : Option String
deriving Repr, DecidableEq

/-- `getImage` (lines 226-249): download by name; the `catch` spans the
whole `try`, logs, and returns `null` — it does not inspect the error.
The outer `Except` is the channel for an exception thrown to the caller
(which this body never uses), the inner `Option` is the JavaScript
null-or-object result. `downloadResult` is the network outcome. -/
def getImage (downloadResult : Except B2DownloadError DownloadResponse) :
    Except String (Option GetImageData) :=
  match downloadResult with
  | Except.ok r =>
    Except.ok (some ⟨r.data, r.contentType.getD "image/jpeg", r.contentLength, r.etag⟩)
  | Except.error _ => Except.ok none

/-- The cached B2 client constructed from the two credential variables
(line 60-63). -/
structure B2Client where
  applicationKeyId : String
  applicationKey : String
deriving Repr, DecidableEq

/-- The mutable singleton state of the service: the cached client, bucket
identity and the `isInitialized` flag (constructor lines 19-23). -/
structure ServiceState where
  b2 : Option B2Client
  bucketId : Option String
  bucketName : Option String
  isInitialized : Bool
deriving Repr, DecidableEq

/-- The four required environment variables, in the order checked. -/
def requiredEnvVars : List String :=
  ["B2_APPLICATION_KEY_ID", "B2_APPLICATION_KEY", "B2_BUCKET_ID", "B2_BUCKET_NAME"]

/-- The JavaScript truth test `!process.env[envVar]`: missing or empty
values both count as absent. -/
def envMissing (value : Option String) : Bool :=
  match value with
  | none => true
  | some s => s.isEmpty

/-- `initialize` (lines 41-77), embedded as a state transformer. If the
`isInitialized` flag is set it returns at once (line 42), touching
neither the state nor the network. Otherwise it checks the four required
environment variables, constructs the client, runs the `authorize`
network call (oracle `authorizeResult`), and on success records bucket id,
bucket name and the flag; any failure is rethrown as
`Image service initialization failed: {message}`. The result is the
outcome, the state after the call, and whether the network was touched. -/
def initService (st : ServiceState) (env : String → Option String)
    (authorizeResult : Except String Unit) :
    Except String Unit × ServiceState × Bool :=
  if st.isInitialized then (Except.ok (), st, false)
  else
    match requiredEnvVars.find? (fun v => envMissing (env v)) with
    | some v =>
      (Except.error ("Image service initialization failed: Missing required environment variable: " ++ v),
       st, false)
    | none =>
      let client : B2Client :=
        ⟨(env "B2_APPLICATION_KEY_ID").getD "", (env "B2_APPLICATION_KEY").getD ""⟩
      let st1 : ServiceState := { st with b2 := some client }
      match authorizeResult with
      | Except.error e =>
        (Except.error ("Image service initialization failed: " ++ e), st1, true)
      | Except.ok _ =>
        (Except.ok (),
         { st1 with bucketId := env "B2_BUCKET_ID",
                    bucketName := env "B2_BUCKET_NAME",
                    isInitialized := true },
         true)

/-- The structured result of `healthCheck`: the two object shapes
returned on lines 373-380 and 382-386. -/
inductive HealthResult where
  | healthy (initialized : Bool) (bucketName : Option String)
      (formats : List String) (maxSize : String) (sizes : List String)
  | unhealthy (error : String) (initialized : Bool)
deriving Repr, DecidableEq

/-- `healthCheck` (lines 364-388): ensure initialization, probe
`listBuckets` (oracle `listBucketsResult`), and assemble the healthy
diagnostics; the `catch` converts any failure into the unhealthy shape
carrying the error message and the current flag, so the function is total
and never throws. -/
def healthCheck (st : ServiceState) (env : String → Option String)
    (authorizeResult : Except String Unit)
    (listBucketsResult : Except String Unit) : HealthResult :=
  match initService st env authorizeResult with
  | (Except.error e, st1, _) => HealthResult.unhealthy e st1.isInitialized
  | (Except.ok _, st1, _) =>
    match listBucketsResult with
    | Except.error e => HealthResult.unhealthy e st1.isInitialized
    | Except.ok _ =>
      HealthResult.healthy st1.isInitialized st1.bucketName supportedFormats
        "10MB" (imageSizes.map Prod.fst)

/-! Helper lemmas shared by the claim theorems. -/

theorem append_left_ne (s : String) {a b : String} (h : a ≠ b) :
    s ++ a ≠ s ++ b := by
  intro heq
  apply h
  have hd : s.data ++ a.data = s.data ++ b.data := by
    have := congrArg String.data heq
    simpa using this
  have hab := List.append_cancel_left hd
  cases a; cases b
  exact congrArg String.mk hab

theorem validateImage_ok (imageBuffer : List UInt8) (mimeType : String)
    (hsize : imageBuffer.length ≤ maxFileSize) (hfmt : mimeType ∈ supportedFormats)
    (hne : imageBuffer ≠ []) : validateImage imageBuffer mimeType = Except.ok () := by
  unfold validateImage
  rw [if_neg (Nat.not_lt.mpr hsize), if_neg (not_not_intro hfmt),
      if_neg (fun hz => hne (List.length_eq_zero.mp hz))]

/-- Claim C1: `deleteImage` reconstructs the four stored filenames with the
hardcoded extension `jpg` — `{assetId}.jpg` for the original variant and
`{assetId}_{variantName}.jpg` for thumbnail, medium and large —
independently of the MIME-derived extension used at upload time, so for an
asset uploaded with a non-jpeg MIME type the delete-time filenames differ
from the upload-time filenames. -/
theorem deleteImage_hardcoded_jpg_divergence (fileId mimeType : String)
    (hmem : mimeType ∈ supportedFormats) (hjpg : mimeType ≠ "image/jpeg") :
    deleteFileNames fileId =
      [fileId ++ "_thumbnail.jpg", fileId ++ "_medium.jpg",
       fileId ++ "_large.jpg", fileId ++ ".jpg"] ∧
    uploadFileNames fileId mimeType ≠ deleteFileNames fileId := by
  refine ⟨rfl, ?_⟩
  have hcases : mimeType = "image/png" ∨ mimeType = "image/webp" := by
    simp only [supportedFormats, List.mem_cons, List.mem_singleton] at hmem
    rcases hmem with h | h | h
    · exact absurd h hjpg
    · exact Or.inl h
    · exact Or.inr (by simpa using h)
  rcases hcases with h | h <;> subst h <;> intro heq
  · have h0 : fileId ++ "_thumbnail.png" = fileId ++ "_thumbnail.jpg" :=
      congrArg (fun l => l.headD "") heq
    exact append_left_ne fileId (by decide) h0
  · have h0 : fileId ++ "_thumbnail.webp" = fileId ++ "_thumbnail.jpg" :=
      congrArg (fun l => l.headD "") heq
    exact append_left_ne fileId (by decide) h0

/-- Witness for C1 at the concrete asset id `asset1` uploaded as
`image/png`. -/
theorem deleteImage_hardcoded_jpg_divergence_witness :
    deleteFileNames "asset1" =
      ["asset1_thumbnail.jpg", "asset1_medium.jpg",
       "asset1_large.jpg", "asset1.jpg"] ∧
    uploadFileNames "asset1" "image/png" ≠ deleteFileNames "asset1" := by
  have h := deleteImage_hardcoded_jpg_divergence "asset1" "image/png"
    (by decide) (by decide)
  exact ⟨h.1, h.2⟩

/-- Claim C2 counterexample: on a 0-byte buffer with the unsupported MIME
type `text/plain`, `validateImage` fails with the unsupported-format
error, not the empty-buffer error — the format check (line 319) throws
before the emptiness check (line 324) can run, so the empty-buffer error
is masked. -/
theorem validateImage_empty_masked_counterexample :
    validateImage ([] : List UInt8) "text/plain" =
      Except.error "Unsupported image format. Supported formats: image/jpeg, image/png, image/webp" ∧
    validateImage ([] : List UInt8) "text/plain" ≠
      Except.error "Invalid image file: empty buffer" := by
  constructor
  · rfl
  · intro h
    have h2 := Except.error.inj ((show validateImage ([] : List UInt8) "text/plain" =
      Except.error "Unsupported image format. Supported formats: image/jpeg, image/png, image/webp"
      from rfl).symm.trans h)
    exact absurd h2 (by decide)

/-- Claim C2 (amended): for every MIME type in the supported set,
`validateImage` on a 0-byte buffer fails with the empty-buffer error; for
a MIME type outside the supported set the unsupported-format error is
raised instead, because the format check precedes the emptiness check. -/
theorem validateImage_empty_buffer_by_format (mimeType : String) :
    (mimeType ∈ supportedFormats →
      validateImage [] mimeType = Except.error "Invalid image file: empty buffer") ∧
    (mimeType ∉ supportedFormats →
      validateImage [] mimeType =
        Except.error ("Unsupported image format. Supported formats: " ++
          String.intercalate ", " supportedFormats)) := by
  constructor
  · intro h
    unfold validateImage
    rw [if_neg (by decide), if_neg (not_not_intro h)]
    rfl
  · intro h
    unfold validateImage
    rw [if_neg (by decide), if_pos h]

/-- Witness for the amended C2 at the supported MIME type `image/jpeg`. -/
theorem validateImage_empty_buffer_by_format_witness :
    validateImage [] "image/jpeg" = Except.error "Invalid image file: empty buffer" :=
  (validateImage_empty_buffer_by_format "image/jpeg").1 (by decide)

/-- Claim C9: the outcome of `validateImage` depends only on the length of
the buffer and the MIME string — the byte contents are never inspected, so
two equal-length buffers validate identically under the same declared
MIME type. -/
theorem validateImage_length_extensional (b1 b2 : List UInt8) (mimeType : String)
    (h : b1.length = b2.length) :
    validateImage b1 mimeType = validateImage b2 mimeType := by
  unfold validateImage
  rw [h]

/-- Witness for C9: two one-byte buffers with different contents validate
identically. -/
theorem validateImage_length_extensional_witness :
    ([0] : List UInt8).length = ([255] : List UInt8).length ∧
    validateImage [0] "image/png" = validateImage [255] "image/png" :=
  ⟨by decide, validateImage_length_extensional [0] [255] "image/png" (by decide)⟩

/-- Claim C10: `deleteFromB2` issues a `deleteFileVersion` call exactly
when the listing response contains an entry whose `fileName` equals the
reconstructed target exactly; with no exact match (listing failures and
merely prefix-adjacent names included) no delete call is made, and every
call issued targets the requested filename. -/
theorem deleteFromB2_exact_match_only (fileName : String)
    (listResult : Except String (List FileInfo)) :
    ((∃ c, c ∈ deleteFromB2 fileName listResult) ↔
      ∃ files, listResult = Except.ok files ∧ ∃ f ∈ files, f.fileName = fileName) ∧
    ∀ c ∈ deleteFromB2 fileName listResult, c.fileName = fileName := by
  cases listResult with
  | error e => simp [deleteFromB2]
  | ok files =>
    cases hf : files.find? (fun f => f.fileName == fileName) with
    | none =>
      have hno := List.find?_eq_none.mp hf
      constructor
      · simp only [deleteFromB2, hf]
        constructor
        · rintro ⟨c, hc⟩
          simp at hc
        · rintro ⟨fs, hfs, f, hmem, hname⟩
          obtain rfl : files = fs := Except.ok.inj hfs
          exact absurd (by simpa using hname) (by simpa using hno f hmem)
      · simp [deleteFromB2, hf]
    | some f =>
      have hmem := List.mem_of_find?_eq_some hf
      have hname : f.fileName = fileName := by simpa using List.find?_some hf
      constructor
      · constructor
        · intro _
          exact ⟨files, rfl, f, hmem, hname⟩
        · intro _
          exact ⟨⟨f.fileId, fileName⟩, by simp [deleteFromB2, hf]⟩
      · intro c hc
        simp only [deleteFromB2, hf, List.mem_singleton] at hc
        rw [hc]

/-- Witness for C10: a listing holding only the prefix-adjacent name
`a.jpg.backup` leads to no delete call, while a listing holding `a.jpg`
itself leads to one call for it. -/
theorem deleteFromB2_exact_match_only_witness :
    deleteFromB2 "a.jpg" (Except.ok [⟨"f1", "a.jpg.backup"⟩]) = [] ∧
    ∃ c, c ∈ deleteFromB2 "a.jpg" (Except.ok [⟨"f2", "a.jpg"⟩]) ∧
      c.fileName = "a.jpg" := by
  constructor
  · have h := deleteFromB2_exact_match_only "a.jpg" (Except.ok [⟨"f1", "a.jpg.backup"⟩])
    rcases he : deleteFromB2 "a.jpg" (Except.ok [⟨"f1", "a.jpg.backup"⟩]) with _ | ⟨c, cs⟩
    · rfl
    · exfalso
      obtain ⟨fs, hfs, f, hmem, hname⟩ := h.1.mp ⟨c, by rw [he]; exact List.mem_cons_self c cs⟩
      obtain rfl : ([⟨"f1", "a.jpg.backup"⟩] : List FileInfo) = fs := Except.ok.inj hfs
      simp only [List.mem_singleton] at hmem
      rw [hmem] at hname
      exact absurd hname (by decide)
  · have h := deleteFromB2_exact_match_only "a.jpg" (Except.ok [⟨"f2", "a.jpg"⟩])
    obtain ⟨c, hc⟩ := h.1.mpr ⟨[⟨"f2", "a.jpg"⟩], rfl, ⟨"f2", "a.jpg"⟩, by simp, rfl⟩
    exact ⟨c, hc, h.2 c hc⟩

theorem deleteFromB2_nil_of_no_match (fileName : String)
    (listResult : Except String (List FileInfo))
    (h : ∀ files, listResult = Except.ok files → ∀ f ∈ files, f.fileName ≠ fileName) :
    deleteFromB2 fileName listResult = [] := by
  cases listResult with
  | error e => rfl
  | ok files =>
    have hfind : files.find? (fun f => f.fileName == fileName) = none :=
      List.find?_eq_none.mpr (fun f hf => by simpa using h files rfl f hf)
    simp [deleteFromB2, hfind]

/-- Claim C6: `deleteImage` reports success whenever its per-variant
attempts run — per-file failures and not-found listings never fail the
overall call — and for an asset with no matching stored files it is a
no-op returning `true` with no delete call finding a match. -/
theorem deleteImage_best_effort (fileId : String)
    (listings : String → Except String (List FileInfo)) :
    (deleteImage fileId listings).1 = true ∧
    ((∀ fn files, listings fn = Except.ok files → ∀ f ∈ files, f.fileName ≠ fn) →
      (deleteImage fileId listings).2 = []) := by
  constructor
  · rfl
  · intro h
    show ((deleteFileNames fileId).map (fun fn => deleteFromB2 fn (listings fn))).flatten = []
    rw [List.flatten_eq_nil_iff]
    intro l hl
    obtain ⟨fn, _, rfl⟩ := List.mem_map.mp hl
    exact deleteFromB2_nil_of_no_match fn (listings fn) (h fn)

/-- Witness for C6: deleting `asset2` when every listing comes back empty
returns `true` and issues no delete calls, even though one listing call
could equally be made to fail — also checked at a failing listing. -/
theorem deleteImage_best_effort_witness :
    (deleteImage "asset2" (fun _ => Except.ok [])).1 = true ∧
    (deleteImage "asset2" (fun _ => Except.ok [])).2 = [] ∧
    (deleteImage "asset2" (fun _ => Except.error "store down")).1 = true := by
  have h := deleteImage_best_effort "asset2" (fun _ => Except.ok [])
  have h2 := deleteImage_best_effort "asset2" (fun _ => Except.error "store down")
  refine ⟨h.1, h.2 ?_, h2.1⟩
  intro fn files hf f hmem
  cases hf
  simp at hmem

/-- Claim C8: calling `initialize` when the service is already initialized
is a no-op decided by the `isInitialized` flag alone: it succeeds, leaves
the whole cached state (client, bucketId, bucketName, flag) unchanged and
performs no network call, whatever the environment or the authorize
outcome would be. -/
theorem initService_idempotent (st : ServiceState) (env : String → Option String)
    (authorizeResult : Except String Unit) (h : st.isInitialized = true) :
    initService st env authorizeResult = (Except.ok (), st, false) := by
  unfold initService
  rw [if_pos h]

/-- Witness for C8: an initialized state survives re-initialization
untouched even under an empty environment and a failing authorize call,
showing the network is never consulted. -/
theorem initService_idempotent_witness :
    initService ⟨some ⟨"keyId", "keySecret"⟩, some "bucket123", some "gems-bucket", true⟩
      (fun _ => none) (Except.error "network down") =
      (Except.ok (),
       ⟨some ⟨"keyId", "keySecret"⟩, some "bucket123", some "gems-bucket", true⟩,
       false) :=
  initService_idempotent _ _ _ rfl

/-- Claim C4 counterexample: a download failure that is not a not-found
(a store/network error) is converted to `null` by `getImage` instead of
propagating as a thrown error — the result is `Except.ok none`, an
exception-free null return. -/
theorem getImage_storeError_counterexample :
    getImage (Except.error (B2DownloadError.storeError "network timeout")) =
      Except.ok none ∧
    (getImage (Except.error (B2DownloadError.storeError "network timeout"))).isOk = true :=
  ⟨rfl, rfl⟩

/-- Claim C4 (amended): `getImage` returns `null` on every failure of the
download — not-found and any other store error alike — and never lets a
failure propagate to the caller; on success it returns the body with the
content type defaulted to `image/jpeg`. -/
theorem getImage_null_on_any_failure :
    (∀ e, getImage (Except.error e) = Except.ok none) ∧
    (∀ r, getImage (Except.ok r) =
      Except.ok (some ⟨r.data, r.contentType.getD "image/jpeg",
        r.contentLength, r.etag⟩)) :=
  ⟨fun _ => rfl, fun _ => rfl⟩

/-- Claim C3 counterexample: `uploadImage` on an empty buffer fails with
`Image upload failed: Invalid image file: empty buffer`, which is not the
original message of the Validator — the catch block (line 133) prepends
`Image upload failed: ` to every error it rethrows. -/
theorem uploadImage_wrapped_counterexample :
    uploadImage [] "cafe.jpg" "image/jpeg" "asset4" "https://cdn"
      (fun _ => Except.ok []) (fun _ => Except.ok ()) =
      Except.error "Image upload failed: Invalid image file: empty buffer" ∧
    validateImage [] "image/jpeg" = Except.error "Invalid image file: empty buffer" ∧
    ("Image upload failed: Invalid image file: empty buffer" : String) ≠
      "Invalid image file: empty buffer" :=
  ⟨rfl, rfl, by decide⟩

/-- Claim C3 (amended): a Validator or Transcoder failure fails
`uploadImage` with the message of the failing component preserved but
prefixed by `Image upload failed: ` — the caller sees the original message as a
suffix, not verbatim. -/
theorem uploadImage_error_prefixed (imageBuffer : List UInt8)
    (originalName mimeType fileId baseUrl : String)
    (sharpResults : String → Except String (List UInt8))
    (uploadResults : String → Except String Unit) :
    (∀ e, validateImage imageBuffer mimeType = Except.error e →
      uploadImage imageBuffer originalName mimeType fileId baseUrl
        sharpResults uploadResults = Except.error ("Image upload failed: " ++ e)) ∧
    (∀ e, validateImage imageBuffer mimeType = Except.ok () →
      sharpResults "thumbnail" = Except.error e →
      uploadImage imageBuffer originalName mimeType fileId baseUrl
        sharpResults uploadResults =
        Except.error ("Image upload failed: " ++ ("Image processing failed: " ++ e))) := by
  constructor
  · intro e h
    simp [uploadImage, h]
  · intro e hv hs
    simp [uploadImage, hv, imageSizes, uploadVariants, uploadVariant, processImage, hs]

/-- Witness for the amended C3: the empty-buffer validation failure and a
thumbnail transcode failure both surface with the prefixed message. -/
theorem uploadImage_error_prefixed_witness :
    uploadImage [] "cafe.jpg" "image/png" "asset3" "https://cdn"
      (fun _ => Except.ok []) (fun _ => Except.ok ()) =
      Except.error ("Image upload failed: " ++ "Invalid image file: empty buffer") ∧
    uploadImage [7] "cafe.jpg" "image/png" "asset3" "https://cdn"
      (fun _ => Except.error "bad image data") (fun _ => Except.ok ()) =
      Except.error ("Image upload failed: " ++
        ("Image processing failed: " ++ "bad image data")) :=
  ⟨(uploadImage_error_prefixed [] "cafe.jpg" "image/png" "asset3" "https://cdn" _ _).1
      "Invalid image file: empty buffer" rfl,
   (uploadImage_error_prefixed [7] "cafe.jpg" "image/png" "asset3" "https://cdn" _ _).2
      "bad image data" rfl rfl⟩

theorem initService_isInitialized_of_ok (st : ServiceState) (env : String → Option String)
    (a : Except String Unit) (h : (initService st env a).1 = Except.ok ()) :
    (initService st env a).2.1.isInitialized = true := by
  unfold initService at h ⊢
  by_cases hst : st.isInitialized = true
  · rw [if_pos hst]
    exact hst
  · rw [if_neg hst] at h ⊢
    cases hfind : requiredEnvVars.find? (fun v => envMissing (env v)) with
    | some v =>
      rw [hfind] at h
      simp at h
    | none =>
      rw [hfind] at h
      cases a with
      | error e => simp at h
      | ok u => simp

/-- Claim C7: `healthCheck` is a total function of the service state and
the call outcomes — it never throws. When initialization and the
`listBuckets` probe succeed it reports `healthy` with the (now true)
initialization flag, the configured bucket name, the supported format
list, the max size and the variant names; when initialization fails, or
the probe fails, it reports `unhealthy` with that error message and the
current initialization flag. -/
theorem healthCheck_never_throws (st : ServiceState) (env : String → Option String)
    (authorizeResult listBucketsResult : Except String Unit) :
    ((initService st env authorizeResult).1 = Except.ok () →
      listBucketsResult = Except.ok () →
      healthCheck st env authorizeResult listBucketsResult =
        HealthResult.healthy true
          (initService st env authorizeResult).2.1.bucketName
          supportedFormats "10MB" ["thumbnail", "medium", "large", "original"]) ∧
    (∀ e, (initService st env authorizeResult).1 = Except.error e →
      healthCheck st env authorizeResult listBucketsResult =
        HealthResult.unhealthy e (initService st env authorizeResult).2.1.isInitialized) ∧
    (∀ e, (initService st env authorizeResult).1 = Except.ok () →
      listBucketsResult = Except.error e →
      healthCheck st env authorizeResult listBucketsResult =
        HealthResult.unhealthy e (initService st env authorizeResult).2.1.isInitialized) := by
  rcases hI : initService st env authorizeResult with ⟨r, st1, n⟩
  refine ⟨?_, ?_, ?_⟩
  · intro h1 h2
    have hflag := initService_isInitialized_of_ok st env authorizeResult (by rw [hI]; exact h1)
    rw [hI] at hflag
    have hflag1 : st1.isInitialized = true := hflag
    have h1a : r = Except.ok () := h1
    subst h1a
    subst h2
    unfold healthCheck
    rw [hI]
    show HealthResult.healthy st1.isInitialized st1.bucketName supportedFormats "10MB"
        (imageSizes.map Prod.fst) =
      HealthResult.healthy true st1.bucketName supportedFormats "10MB"
        ["thumbnail", "medium", "large", "original"]
    rw [hflag1]
    rfl
  · intro e h1
    have h1a : r = Except.error e := h1
    subst h1a
    unfold healthCheck
    rw [hI]
  · intro e h1 h2
    have h1a : r = Except.ok () := h1
    subst h1a
    subst h2
    unfold healthCheck
    rw [hI]

/-- Witness for C7: from an uninitialized state with a complete
environment, a healthy probe yields the healthy shape and a failing probe
yields the unhealthy shape with the message of the probe. -/
theorem healthCheck_never_throws_witness :
    healthCheck ⟨none, none, none, false⟩ (fun _ => some "gems") (Except.ok ())
        (Except.ok ()) =
      HealthResult.healthy true (some "gems") supportedFormats "10MB"
        ["thumbnail", "medium", "large", "original"] ∧
    healthCheck ⟨none, none, none, false⟩ (fun _ => some "gems") (Except.ok ())
        (Except.error "probe down") =
      HealthResult.unhealthy "probe down" true :=
  ⟨(healthCheck_never_throws _ _ _ _).1 rfl rfl,
   (healthCheck_never_throws _ _ _ _).2.2 "probe down" rfl rfl⟩

theorem uploadFileName_not_original (fileId ext s : String) (h : s ≠ "original") :
    uploadFileName fileId ext s = fileId ++ ("_" ++ s ++ "." ++ ext) := by
  unfold uploadFileName
  rw [if_neg h]

theorem uploadFileName_original (fileId ext : String) :
    uploadFileName fileId ext "original" = fileId ++ ("." ++ ext) := rfl

/-- Claim C5: for every nonempty buffer under the 10 MiB limit whose MIME
type is supported, when every variant transcode and upload succeeds,
`uploadImage` succeeds with a urls mapping holding exactly one entry per
configured variant, in order thumbnail, medium, large, original; every
URL ends in the stored filename (`{assetId}.{ext}` for original,
`{assetId}_{variantName}.{ext}` otherwise) and thus contains the same
freshly minted asset identifier. -/
theorem uploadImage_success_shape (imageBuffer : List UInt8)
    (originalName mimeType fileId baseUrl : String)
    (sharpResults : String → Except String (List UInt8))
    (uploadResults : String → Except String Unit)
    (hsize : imageBuffer.length < maxFileSize)
    (hfmt : mimeType ∈ supportedFormats)
    (hne : imageBuffer ≠ [])
    (hsharp : ∀ s, ∃ b, sharpResults s = Except.ok b)
    (hupload : ∀ s, uploadResults s = Except.ok ()) :
    ∃ d, uploadImage imageBuffer originalName mimeType fileId baseUrl
        sharpResults uploadResults = Except.ok d ∧
      d.id = fileId ∧
      d.urls.map Prod.fst = ["thumbnail", "medium", "large", "original"] ∧
      ∀ p ∈ d.urls,
        (∃ pre, p.2 = pre ++ uploadFileName fileId (getFileExtension mimeType) p.1) ∧
        (∃ pre rest, p.2 = pre ++ (fileId ++ rest)) := by
  obtain ⟨b1, h1⟩ := hsharp "thumbnail"
  obtain ⟨b2, h2⟩ := hsharp "medium"
  obtain ⟨b3, h3⟩ := hsharp "large"
  obtain ⟨b4, h4⟩ := hsharp "original"
  have hv := validateImage_ok imageBuffer mimeType (le_of_lt hsize) hfmt hne
  have hV : uploadVariants fileId (getFileExtension mimeType) baseUrl sharpResults
      uploadResults imageSizes = Except.ok
        [("thumbnail", baseUrl ++ "/" ++ uploadFileName fileId (getFileExtension mimeType) "thumbnail"),
         ("medium", baseUrl ++ "/" ++ uploadFileName fileId (getFileExtension mimeType) "medium"),
         ("large", baseUrl ++ "/" ++ uploadFileName fileId (getFileExtension mimeType) "large"),
         ("original", baseUrl ++ "/" ++ uploadFileName fileId (getFileExtension mimeType) "original")] := by
    simp [imageSizes, uploadVariants, uploadVariant, processImage, uploadToB2,
      h1, h2, h3, h4, hupload]
  refine ⟨⟨fileId,
    [("thumbnail", baseUrl ++ "/" ++ uploadFileName fileId (getFileExtension mimeType) "thumbnail"),
     ("medium", baseUrl ++ "/" ++ uploadFileName fileId (getFileExtension mimeType) "medium"),
     ("large", baseUrl ++ "/" ++ uploadFileName fileId (getFileExtension mimeType) "large"),
     ("original", baseUrl ++ "/" ++ uploadFileName fileId (getFileExtension mimeType) "original")],
    originalName, mimeType⟩, ?_, rfl, by simp, ?_⟩
  · simp [uploadImage, hv, hV]
  · intro p hp
    simp only [List.mem_cons, List.mem_singleton, List.not_mem_nil, or_false] at hp
    rcases hp with rfl | rfl | rfl | rfl
    · exact ⟨⟨baseUrl ++ "/", rfl⟩,
        ⟨baseUrl ++ "/", "_" ++ "thumbnail" ++ "." ++ getFileExtension mimeType, by
          rw [uploadFileName_not_original fileId _ "thumbnail" (by decide)]⟩⟩
    · exact ⟨⟨baseUrl ++ "/", rfl⟩,
        ⟨baseUrl ++ "/", "_" ++ "medium" ++ "." ++ getFileExtension mimeType, by
          rw [uploadFileName_not_original fileId _ "medium" (by decide)]⟩⟩
    · exact ⟨⟨baseUrl ++ "/", rfl⟩,
        ⟨baseUrl ++ "/", "_" ++ "large" ++ "." ++ getFileExtension mimeType, by
          rw [uploadFileName_not_original fileId _ "large" (by decide)]⟩⟩
    · exact ⟨⟨baseUrl ++ "/", rfl⟩,
        ⟨baseUrl ++ "/", "." ++ getFileExtension mimeType, by
          rw [uploadFileName_original fileId]⟩⟩

/-- Witness for C5: a one-byte jpeg upload with all oracles succeeding
produces the four-variant URL map for the asset id `abc`. -/
theorem uploadImage_success_shape_witness :
    ∃ d, uploadImage [0] "cafe.jpg" "image/jpeg" "abc" "https://cdn"
        (fun _ => Except.ok [0]) (fun _ => Except.ok ()) = Except.ok d ∧
      d.id = "abc" ∧
      d.urls.map Prod.fst = ["thumbnail", "medium", "large", "original"] ∧
      ∀ p ∈ d.urls,
        (∃ pre, p.2 = pre ++ uploadFileName "abc" (getFileExtension "image/jpeg") p.1) ∧
        (∃ pre rest, p.2 = pre ++ ("abc" ++ rest)) :=
  uploadImage_success_shape [0] "cafe.jpg" "image/jpeg" "abc" "https://cdn" _ _
    (by decide) (by decide) (by decide) (fun s => ⟨[0], rfl⟩) (fun s => rfl)

end ImageService
